import Mathlib

/-
Verification development for the WebRTC RTCStatsCollector
(src/webrtc/api/rtcstatscollector.cc).

The collector orchestrates a three-domain stats aggregation cycle,
caches the merged report, and fans it out to queued callbacks.  The
record production logic (certificates, ICE candidates and pairs, the
peer-connection summary) is embedded as pure functions; the
orchestrator state machine is embedded as explicit state passing.

Machine integers are modelled as Nat or Int with explicit casts where
the source performs a cast; doubles (current_rtt) are modelled as
exact rationals, since the source computes a single division.
-/

namespace RTCStatsModel

/-! ## Record taxonomy

Modelled from the spec: the concrete record classes (RTCCertificateStats,
RTCIceCandidateStats, RTCIceCandidatePairStats, RTCPeerConnectionStats)
live in rtcstats_objects.h, which is not under src/.  Each stats member
is optional: defined or undefined, per the spec's optional-field
semantics.  Field names follow the source. -/

structure RTCCertificateStats where
  id : String
  timestamp_us : Int
  fingerprint : Option String := none
  fingerprint_algorithm : Option String := none
  base64_certificate : Option String := none
  issuer_certificate_id : Option String := none
  deriving Repr, DecidableEq

structure RTCIceCandidateStats where
  id : String
  timestamp_us : Int
  /-- True for RTCLocalIceCandidateStats, false for
  RTCRemoteIceCandidateStats: the spec treats local/remote as a type
  tag on one record shape, not separate classes. -/
  is_local : Bool
  ip : Option String := none
  port : Option Int := none
  protocol : Option String := none
  candidate_type : Option String := none
  priority : Option Int := none
  url : Option String := none
  deriving Repr, DecidableEq

structure RTCIceCandidatePairStats where
  id : String
  timestamp_us : Int
  transport_id : Option String := none
  local_candidate_id : Option String := none
  remote_candidate_id : Option String := none
  state : Option String := none
  priority : Option Nat := none
  nominated : Option Bool := none
  writable : Option Bool := none
  readable : Option Bool := none
  bytes_sent : Option Nat := none
  bytes_received : Option Nat := none
  total_rtt : Option ℚ := none
  current_rtt : Option ℚ := none
  available_outgoing_bitrate : Option ℚ := none
  available_incoming_bitrate : Option ℚ := none
  requests_received : Option Nat := none
  requests_sent : Option Nat := none
  responses_received : Option Nat := none
  responses_sent : Option Nat := none
  retransmissions_received : Option Nat := none
  retransmissions_sent : Option Nat := none
  consent_requests_received : Option Nat := none
  consent_requests_sent : Option Nat := none
  consent_responses_received : Option Nat := none
  consent_responses_sent : Option Nat := none
  deriving Repr, DecidableEq

structure RTCPeerConnectionStats where
  id : String
  timestamp_us : Int
  data_channels_opened : Option Nat := none
  data_channels_closed : Option Nat := none
  deriving Repr, DecidableEq

/-- One typed record in a report. -/
inductive RTCStats where
  | certificate (s : RTCCertificateStats)
  | iceCandidate (s : RTCIceCandidateStats)
  | iceCandidatePair (s : RTCIceCandidatePairStats)
  | peerConnection (s : RTCPeerConnectionStats)
  deriving Repr, DecidableEq

def RTCStats.id : RTCStats → String
  | .certificate s => s.id
  | .iceCandidate s => s.id
  | .iceCandidatePair s => s.id
  | .peerConnection s => s.id

/-! ## Report store

Modelled from the spec: RTCStatsReport (rtcstatsreport.h/.cc) is not
under src/.  Per the spec it is a keyed record container with lookup
by id, insertion, and a union-style merge (ids are disjoint across
contributions by construction).  We model it as the list of records in
insertion order; Get is lookup by id. -/

abbrev RTCStatsReport := List RTCStats

def RTCStatsReport.Get (report : RTCStatsReport) (i : String) : Option RTCStats :=
  report.find? (fun s => s.id == i)

def RTCStatsReport.AddStats (report : RTCStatsReport) (s : RTCStats) : RTCStatsReport :=
  report ++ [s]

def RTCStatsReport.TakeMembersFrom (report other : RTCStatsReport) : RTCStatsReport :=
  report ++ other

/-! ## Candidate type mapping (rtcstatscollector.cc lines 26-37) -/

/-- Modelled from the spec: the cricket port-type string constants are
declared in p2p/base/port.h, not under src/; the spec names the four
tags local, stun, peer-reflexive, relay. -/
def LOCAL_PORT_TYPE : String := "local"

/-- Modelled from the spec: see LOCAL_PORT_TYPE. -/
def STUN_PORT_TYPE : String := "stun"

/-- Modelled from the spec: see LOCAL_PORT_TYPE. -/
def PRFLX_PORT_TYPE : String := "prflx"

/-- Modelled from the spec: see LOCAL_PORT_TYPE. -/
def RELAY_PORT_TYPE : String := "relay"

/-- Modelled from the spec: the RTCIceCandidateType string constants
(rtcstats_objects.h, not under src/); the spec names host, srflx,
prflx, relay. -/
def kHost : String := "host"

/-- Modelled from the spec: see kHost. -/
def kSrflx : String := "srflx"

/-- Modelled from the spec: see kHost. -/
def kPrflx : String := "prflx"

/-- Modelled from the spec: see kHost. -/
def kRelay : String := "relay"

/-- Embeds CandidateTypeToRTCIceCandidateType.  The RTC_NOTREACHED
branch (abort in debug, nullptr otherwise) is modelled as none. -/
def CandidateTypeToRTCIceCandidateType (type : String) : Option String :=
  if type = LOCAL_PORT_TYPE then some kHost
  else if type = STUN_PORT_TYPE then some kSrflx
  else if type = PRFLX_PORT_TYPE then some kPrflx
  else if type = RELAY_PORT_TYPE then some kRelay
  else none

/-! ## Certificate chain producer (rtcstatscollector.cc lines 200-219)

The SSL certificate stats chain (rtc::SSLCertificateStats, a singly
linked issuer list) is flattened to a List in leaf-to-root order. -/

structure SSLCertificateStats where
  fingerprint : String
  fingerprint_algorithm : String
  base64_certificate : String
  deriving Repr, DecidableEq

/-- The certificate record as first constructed inside the loop body,
before any issuer link is written into it. -/
def mkCertificateStats (timestamp_us : Int) (s : SSLCertificateStats) :
    RTCCertificateStats :=
  { id := "RTCCertificate_" ++ s.fingerprint
    timestamp_us := timestamp_us
    fingerprint := some s.fingerprint
    fingerprint_algorithm := some s.fingerprint_algorithm
    base64_certificate := some s.base64_certificate
    issuer_certificate_id := none }

/-- One mutation step the certificate producer performs on the report:
either insert a freshly built record, or write issuer_certificate_id
on the record with the given id. -/
inductive CertOp where
  | insert (stats : RTCCertificateStats)
  | setIssuer (targetId : String) (issuerId : String)
  deriving Repr, DecidableEq

/-- The exact sequence of report operations the source loop performs:
per node it first (if a previous node exists) writes the previous
record's issuer_certificate_id, then inserts the current record.
prev carries the id of the previously inserted record. -/
def certOps (timestamp_us : Int) : List SSLCertificateStats → Option String →
    List CertOp
  | [], _ => []
  | s :: rest, prev =>
      let stats := mkCertificateStats timestamp_us s
      (match prev with
       | some prevId => [CertOp.setIssuer prevId stats.id]
       | none => []) ++
      CertOp.insert stats :: certOps timestamp_us rest (some stats.id)

def applyCertOp (report : RTCStatsReport) : CertOp → RTCStatsReport
  | .insert stats => report.AddStats (.certificate stats)
  | .setIssuer targetId issuerId =>
      report.map (fun r =>
        match r with
        | .certificate c =>
            if c.id = targetId then
              .certificate { c with issuer_certificate_id := some issuerId }
            else r
        | _ => r)

/-- Embeds ProduceCertificateStatsFromSSLCertificateAndChain_s as the
fold of its operation trace over the report. -/
def ProduceCertificateStatsFromSSLCertificateAndChain_s (timestamp_us : Int)
    (chain : List SSLCertificateStats) (report : RTCStatsReport) :
    RTCStatsReport :=
  (certOps timestamp_us chain none).foldl applyCertOp report

/-! ## Candidate and candidate-pair producer (lines 221-315) -/

structure Candidate where
  id : String
  /-- address().ipaddr().ToString() -/
  ip : String
  /-- address().port(), a uint16 value -/
  port : Nat
  protocol : String
  /-- the cricket port type tag -/
  type : String
  /-- a uint32 value -/
  priority : Nat
  deriving Repr, DecidableEq

structure ConnectionInfo where
  local_candidate : Candidate
  remote_candidate : Candidate
  writable : Bool
  /-- int64 counter -/
  sent_total_bytes : Int
  /-- int64 counter -/
  recv_total_bytes : Int
  /-- uint32 smoothed RTT in milliseconds -/
  rtt : Nat
  sent_ping_requests_total : Int
  recv_ping_responses : Int
  sent_ping_responses : Int
  deriving Repr, DecidableEq

structure TransportChannelStats where
  connection_infos : List ConnectionInfo
  deriving Repr, DecidableEq

structure TransportStats where
  transport_name : String
  channel_stats : List TransportChannelStats
  deriving Repr, DecidableEq

structure SessionStats where
  transport_stats : List TransportStats
  deriving Repr, DecidableEq

/-- static_cast of a signed 64-bit value to uint64 (two's complement). -/
def toUInt64Cast (x : Int) : Nat := (x % (2 ^ 64)).toNat

/-- static_cast of a uint32 value to int32 (two's complement). -/
def toInt32Cast (n : Nat) : Int :=
  if n % (2 ^ 32) < 2 ^ 31 then ((n % (2 ^ 32) : Nat) : Int)
  else ((n % (2 ^ 32) : Nat) : Int) - 2 ^ 32

/-- Embeds ProduceIceCandidateStats_s (lines 289-315): dedup-on-insert
against the report; returns the updated report and the id of the
(possibly pre-existing) candidate record. -/
def ProduceIceCandidateStats_s (timestamp_us : Int) (candidate : Candidate)
    (is_local : Bool) (report : RTCStatsReport) : RTCStatsReport × String :=
  let i := "RTCIceCandidate_" ++ candidate.id
  match report.Get i with
  | some stats => (report, stats.id)
  | none =>
      let candidate_stats : RTCIceCandidateStats :=
        { id := i
          timestamp_us := timestamp_us
          is_local := is_local
          ip := some candidate.ip
          port := some ((candidate.port : Int))
          protocol := some candidate.protocol
          candidate_type := CandidateTypeToRTCIceCandidateType candidate.type
          priority := some (toInt32Cast candidate.priority)
          url := none }
      (report.AddStats (.iceCandidate candidate_stats), i)

/-- The body of the innermost loop of ProduceIceCandidateAndPairStats_s
(lines 227-284) for one ConnectionInfo. -/
def producePairForInfo (timestamp_us : Int) (info : ConnectionInfo)
    (report : RTCStatsReport) : RTCStatsReport :=
  let i := "RTCIceCandidatePair_" ++ info.local_candidate.id ++ "_" ++
    info.remote_candidate.id
  let r1 := ProduceIceCandidateStats_s timestamp_us info.local_candidate true
    report
  let r2 := ProduceIceCandidateStats_s timestamp_us info.remote_candidate false
    r1.1
  let candidate_pair_stats : RTCIceCandidatePairStats :=
    { id := i
      timestamp_us := timestamp_us
      local_candidate_id := some r1.2
      remote_candidate_id := some r2.2
      writable := some info.writable
      bytes_sent := some (toUInt64Cast info.sent_total_bytes)
      bytes_received := some (toUInt64Cast info.recv_total_bytes)
      current_rtt := some ((info.rtt : ℚ) / 1000)
      requests_sent := some (toUInt64Cast info.sent_ping_requests_total)
      responses_received := some (toUInt64Cast info.recv_ping_responses)
      responses_sent := some (toUInt64Cast info.sent_ping_responses) }
  r2.1.AddStats (.iceCandidatePair candidate_pair_stats)

/-- Embeds ProduceIceCandidateAndPairStats_s (lines 221-287): the
triple loop over transports, channels and connection infos. -/
def ProduceIceCandidateAndPairStats_s (timestamp_us : Int)
    (session_stats : SessionStats) (report : RTCStatsReport) :
    RTCStatsReport :=
  session_stats.transport_stats.foldl (fun rep ts =>
    ts.channel_stats.foldl (fun rep cs =>
      cs.connection_infos.foldl (fun rep info =>
        producePairForInfo timestamp_us info rep) rep) rep) report

/-! ## Peer connection summary producer (lines 317-338) -/

/-- DataChannelInterface::DataState values. -/
inductive DataChannelState where
  | kConnecting | kOpen | kClosing | kClosed
  deriving Repr, DecidableEq

/-- Reduction of a Nat to the uint32 range, used where the source
counts in uint32 or casts to it. -/
def toUInt32Cast (n : Nat) : Nat := n % (2 ^ 32)

/-- Embeds ProducePeerConnectionStats_s: counts channels currently in
the open state with a uint32 counter (the per-channel increments wrap,
so the final value is the open count mod 2 to the 32); closed is
static_cast of the channel count to uint32 minus opened, in wrapping
uint32 subtraction (current-state counts). -/
def ProducePeerConnectionStats_s (timestamp_us : Int)
    (data_channels : List DataChannelState) (report : RTCStatsReport) :
    RTCStatsReport :=
  let data_channels_opened := toUInt32Cast
    (data_channels.countP (fun s => s == DataChannelState.kOpen))
  report.AddStats (.peerConnection
    { id := "RTCPeerConnection"
      timestamp_us := timestamp_us
      data_channels_opened := some data_channels_opened
      data_channels_closed := some
        ((toUInt32Cast data_channels.length + 2 ^ 32 -
          data_channels_opened) % 2 ^ 32) })

/-! ## Signaling-thread partial (lines 103-117 and 179-198) -/

/-- The session collaborator, reduced to the three queries the
signaling-thread producers issue.  GetTransportStats returning false is
modelled as transport_stats_result = none; GetLocalCertificate and
GetRemoteSSLCertificate yield an optional certificate chain
(leaf-to-root) per transport name. -/
structure Session where
  transport_stats_result : Option SessionStats
  local_cert : String → Option (List SSLCertificateStats)
  remote_cert : String → Option (List SSLCertificateStats)

/-- Embeds ProduceCertificateStats_s (lines 179-198): per transport,
produce the local chain when GetLocalCertificate succeeds, then the
remote chain when GetRemoteSSLCertificate yields one. -/
def ProduceCertificateStats_s (timestamp_us : Int) (session : Session)
    (session_stats : SessionStats) (report : RTCStatsReport) :
    RTCStatsReport :=
  session_stats.transport_stats.foldl (fun rep ts =>
    let rep1 := match session.local_cert ts.transport_name with
      | some chain =>
          ProduceCertificateStatsFromSSLCertificateAndChain_s timestamp_us
            chain rep
      | none => rep
    match session.remote_cert ts.transport_name with
    | some chain =>
        ProduceCertificateStatsFromSSLCertificateAndChain_s timestamp_us
          chain rep1
    | none => rep1) report

/-- Embeds ProducePartialResultsOnSignalingThread (lines 103-117):
starts from an empty report; certificate and candidate production only
when GetTransportStats succeeds; the peer connection summary
unconditionally. -/
def ProducePartialResultsOnSignalingThread (timestamp_us : Int)
    (session : Session) (data_channels : List DataChannelState) :
    RTCStatsReport :=
  let report : RTCStatsReport := []
  let report := match session.transport_stats_result with
    | some session_stats =>
        ProduceIceCandidateAndPairStats_s timestamp_us session_stats
          (ProduceCertificateStats_s timestamp_us session session_stats
            report)
    | none => report
  ProducePeerConnectionStats_s timestamp_us data_channels report

/-- Embeds ProducePartialResultsOnWorkerThread (lines 119-127): an
empty report. -/
def ProducePartialResultsOnWorkerThread (_timestamp_us : Int) :
    RTCStatsReport := []

/-- Embeds ProducePartialResultsOnNetworkThread (lines 129-137): an
empty report. -/
def ProducePartialResultsOnNetworkThread (_timestamp_us : Int) :
    RTCStatsReport := []

/-! ## Orchestrator state machine (lines 45-177)

A callback is identified by a token (Nat).  All orchestrator mutations
run serialized on the signaling thread in the source; we model each
entry point as a function from state to state plus the observable
effects of the call: the callback invocations it performs (each a
token paired with the delivered report) and the number of domain
collection tasks it dispatches. -/

structure CollectorState where
  callbacks : List Nat
  num_pending_partial_reports : Nat
  partialReport : Option RTCStatsReport
  partialReportTimestamp_us : Int
  cache_timestamp_us : Int
  cache_lifetime_us : Int
  cachedReport : Option RTCStatsReport
  deriving Repr, DecidableEq

/-- The state right after construction (lines 45-60). -/
def CollectorState.init (cache_lifetime_us : Int) : CollectorState :=
  { callbacks := []
    num_pending_partial_reports := 0
    partialReport := none
    partialReportTimestamp_us := 0
    cache_timestamp_us := 0
    cache_lifetime_us := cache_lifetime_us
    cachedReport := none }

structure StepResult where
  state : CollectorState
  delivered : List (Nat × RTCStatsReport)
  dispatched : Nat
  deriving Repr, DecidableEq

/-- Embeds DeliverCachedReport (lines 168-177): invoke every queued
callback with the cached report and clear the queue.  The source
DCHECKs that the cached report exists; the none branch is unreachable
at both call sites. -/
def DeliverCachedReport (st : CollectorState) :
    CollectorState × List (Nat × RTCStatsReport) :=
  match st.cachedReport with
  | some r => ({ st with callbacks := [] }, st.callbacks.map (fun c => (c, r)))
  | none => (st, [])

/-- Embeds GetStatsReport (lines 62-96).  cache_now_us is the
monotonic clock reading taken inside the call. -/
def GetStatsReport (callback : Nat) (cache_now_us : Int)
    (st : CollectorState) : StepResult :=
  let st1 := { st with callbacks := st.callbacks ++ [callback] }
  let hit := match st1.cachedReport with
    | some _ => decide (cache_now_us - st1.cache_timestamp_us ≤
        st1.cache_lifetime_us)
    | none => false
  if hit then
    let d := DeliverCachedReport st1
    { state := d.1, delivered := d.2, dispatched := 0 }
  else if st1.num_pending_partial_reports = 0 then
    { state := { st1 with
        num_pending_partial_reports := 3
        partialReportTimestamp_us := cache_now_us }
      delivered := []
      dispatched := 3 }
  else
    { state := st1, delivered := [], dispatched := 0 }

/-- Embeds ClearCachedStatsReport (lines 98-101). -/
def ClearCachedStatsReport (st : CollectorState) : CollectorState :=
  { st with cachedReport := none }

/-- Embeds AddPartialResults_s (lines 151-166): merge the contribution
into the accumulator, decrement the pending count, and on reaching
zero publish the accumulator as the cache and flush the queue. -/
def AddPartialResults_s (contribution : RTCStatsReport)
    (st : CollectorState) : CollectorState × List (Nat × RTCStatsReport) :=
  let merged := match st.partialReport with
    | none => contribution
    | some p => p.TakeMembersFrom contribution
  let n := st.num_pending_partial_reports - 1
  if n = 0 then
    DeliverCachedReport { st with
      num_pending_partial_reports := 0
      cache_timestamp_us := st.partialReportTimestamp_us
      cachedReport := some merged
      partialReport := none }
  else
    ({ st with num_pending_partial_reports := n, partialReport := some merged },
     [])

/-! ## Derived definitions used by the verification -/

/-- The id the certificate producer synthesizes for a chain node. -/
def certIdOf (s : SSLCertificateStats) : String :=
  "RTCCertificate_" ++ s.fingerprint

/-- The report suffix the certificate producer appends for the chain
starting at an already-built record c followed by the given rest of
the chain: each record links to its successor via
issuer_certificate_id; the last link stays as it is in c when rest is
empty. -/
def linkRecords (timestamp_us : Int) (c : RTCCertificateStats) :
    List SSLCertificateStats → RTCStatsReport
  | [] => [.certificate c]
  | s :: rest =>
      .certificate { c with issuer_certificate_id := some (certIdOf s) } ::
        linkRecords timestamp_us (mkCertificateStats timestamp_us s) rest

/-- The expected certificate records for a whole chain in
leaf-to-root order. -/
def expectedCertReport (timestamp_us : Int) :
    List SSLCertificateStats → RTCStatsReport
  | [] => []
  | s :: rest => linkRecords timestamp_us (mkCertificateStats timestamp_us s)
      rest

/-- True when some operation in the trace writes a field of a record
that an earlier operation of the trace already inserted into the
report; insertedIds carries the ids inserted so far. -/
def mutatesInsertedRecord : List CertOp → (insertedIds : List String) → Bool
  | [], _ => false
  | .insert s :: rest, ids => mutatesInsertedRecord rest (s.id :: ids)
  | .setIssuer targetId _ :: rest, ids =>
      ids.contains targetId || mutatesInsertedRecord rest ids

/-- Erases the one field the setIssuer operation writes, for stating
that it modifies nothing else. -/
def stripIssuer : RTCStats → RTCStats
  | .certificate c => .certificate { c with issuer_certificate_id := none }
  | r => r

def isPeerConnectionRecord : RTCStats → Bool
  | .peerConnection _ => true
  | _ => false

/-- The snapshot published by a completed cycle: the three domain
partials merged in arrival order by AddPartialResults_s. -/
def mergedCycleReport (timestamp_us : Int) (session : Session)
    (data_channels : List DataChannelState) : RTCStatsReport :=
  ((ProducePartialResultsOnSignalingThread timestamp_us session
      data_channels).TakeMembersFrom
    (ProducePartialResultsOnWorkerThread timestamp_us)).TakeMembersFrom
    (ProducePartialResultsOnNetworkThread timestamp_us)

/-- The records the signaling-thread partial holds before the peer
connection summary is appended: certificate and candidate production,
or nothing when GetTransportStats fails. -/
def signalingBase (timestamp_us : Int) (session : Session) :
    RTCStatsReport :=
  match session.transport_stats_result with
  | some session_stats =>
      ProduceIceCandidateAndPairStats_s timestamp_us session_stats
        (ProduceCertificateStats_s timestamp_us session session_stats [])
  | none => []

/-! Concrete sample states used by the witness theorems. -/

/-- A one-record report used by the sample states below. -/
def samplePCReport : RTCStatsReport :=
  [.peerConnection
    { id := "RTCPeerConnection"
      timestamp_us := 17
      data_channels_opened := some 0
      data_channels_closed := some 0 }]

/-- A collector mid-cycle: two contributions outstanding, one queued
requester, no cached report. -/
def sampleBusyState : CollectorState :=
  { callbacks := [5]
    num_pending_partial_reports := 2
    partialReport := some samplePCReport
    partialReportTimestamp_us := 30
    cache_timestamp_us := 0
    cache_lifetime_us := 50
    cachedReport := none }

/-- A collector whose last outstanding contribution is about to
arrive. -/
def sampleCompletingState : CollectorState :=
  { callbacks := [5, 7]
    num_pending_partial_reports := 1
    partialReport := some samplePCReport
    partialReportTimestamp_us := 30
    cache_timestamp_us := 0
    cache_lifetime_us := 50
    cachedReport := none }

/-- An idle collector holding a fresh cached report. -/
def sampleCachedState : CollectorState :=
  { callbacks := [5]
    num_pending_partial_reports := 0
    partialReport := none
    partialReportTimestamp_us := 30
    cache_timestamp_us := 30
    cache_lifetime_us := 50
    cachedReport := some samplePCReport }

/-- The accumulator value AddPartialResults_s forms from the incoming
contribution: the first contribution becomes the accumulator,
subsequent ones are unioned in. -/
def mergedAccumulator (st : CollectorState) (contribution : RTCStatsReport) :
    RTCStatsReport :=
  match st.partialReport with
  | none => contribution
  | some p => p.TakeMembersFrom contribution

/-- A connection info with the counter values of the spec's
optional-field fidelity test vector. -/
def sampleConnectionInfo : ConnectionInfo :=
  { local_candidate :=
      { id := "LC"
        ip := "42.42.42.42"
        port := 42
        protocol := "protocol"
        type := "local"
        priority := 42 }
    remote_candidate :=
      { id := "RC"
        ip := "42.42.42.42"
        port := 42
        protocol := "protocol"
        type := "relay"
        priority := 42 }
    writable := true
    sent_total_bytes := 42
    recv_total_bytes := 1234
    rtt := 1337
    sent_ping_requests_total := 1010
    recv_ping_responses := 4321
    sent_ping_responses := 1000 }

/-- The candidate record ProduceIceCandidateStats_s builds when the id
is not yet present in the report. -/
def mkIceCandidateStats (timestamp_us : Int) (candidate : Candidate)
    (is_local : Bool) : RTCIceCandidateStats :=
  { id := "RTCIceCandidate_" ++ candidate.id
    timestamp_us := timestamp_us
    is_local := is_local
    ip := some candidate.ip
    port := some ((candidate.port : Int))
    protocol := some candidate.protocol
    candidate_type := CandidateTypeToRTCIceCandidateType candidate.type
    priority := some (toInt32Cast candidate.priority)
    url := none }

/-- The candidate pair record producePairForInfo builds for one
connection info. -/
def mkPairStats (timestamp_us : Int) (info : ConnectionInfo) :
    RTCIceCandidatePairStats :=
  { id := "RTCIceCandidatePair_" ++ info.local_candidate.id ++ "_" ++
      info.remote_candidate.id
    timestamp_us := timestamp_us
    local_candidate_id := some ("RTCIceCandidate_" ++ info.local_candidate.id)
    remote_candidate_id := some
      ("RTCIceCandidate_" ++ info.remote_candidate.id)
    writable := some info.writable
    bytes_sent := some (toUInt64Cast info.sent_total_bytes)
    bytes_received := some (toUInt64Cast info.recv_total_bytes)
    current_rtt := some ((info.rtt : ℚ) / 1000)
    requests_sent := some (toUInt64Cast info.sent_ping_requests_total)
    responses_received := some (toUInt64Cast info.recv_ping_responses)
    responses_sent := some (toUInt64Cast info.sent_ping_responses) }

/-- A second connection info sharing the local candidate of
sampleConnectionInfo but with a different remote candidate. -/
def sampleConnectionInfoB : ConnectionInfo :=
  { sampleConnectionInfo with
    remote_candidate :=
      { id := "RC2"
        ip := "42.42.42.43"
        port := 43
        protocol := "protocol"
        type := "stun"
        priority := 43 } }

/-- A four-certificate chain, as in the spec's chain-linking test. -/
def sampleChain4 : List SSLCertificateStats :=
  [{ fingerprint := "f0", fingerprint_algorithm := "sha-1",
     base64_certificate := "p0" },
   { fingerprint := "f1", fingerprint_algorithm := "sha-1",
     base64_certificate := "p1" },
   { fingerprint := "f2", fingerprint_algorithm := "sha-1",
     base64_certificate := "p2" },
   { fingerprint := "f3", fingerprint_algorithm := "sha-1",
     base64_certificate := "p3" }]

/-! ## Theorems -/

/-- C8: the candidate-type translation maps exactly local to host,
stun to srflx, prflx to prflx and relay to relay; every other tag
reaches the fatal RTC_NOTREACHED branch (modelled as none), so under
the precondition that only the four known tags arrive, that branch is
unreachable (the result is always defined). -/
theorem candidate_type_mapping_exact :
    CandidateTypeToRTCIceCandidateType LOCAL_PORT_TYPE = some kHost ∧
    CandidateTypeToRTCIceCandidateType STUN_PORT_TYPE = some kSrflx ∧
    CandidateTypeToRTCIceCandidateType PRFLX_PORT_TYPE = some kPrflx ∧
    CandidateTypeToRTCIceCandidateType RELAY_PORT_TYPE = some kRelay ∧
    (∀ t : String, t ≠ LOCAL_PORT_TYPE → t ≠ STUN_PORT_TYPE →
      t ≠ PRFLX_PORT_TYPE → t ≠ RELAY_PORT_TYPE →
      CandidateTypeToRTCIceCandidateType t = none) ∧
    (∀ t : String, (t = LOCAL_PORT_TYPE ∨ t = STUN_PORT_TYPE ∨
      t = PRFLX_PORT_TYPE ∨ t = RELAY_PORT_TYPE) →
      (CandidateTypeToRTCIceCandidateType t).isSome = true) := by
  refine ⟨rfl, rfl, rfl, rfl, ?_, ?_⟩
  · intro t h1 h2 h3 h4
    simp [CandidateTypeToRTCIceCandidateType, h1, h2, h3, h4]
  · rintro t (rfl | rfl | rfl | rfl) <;> rfl

/-- Witness for candidate_type_mapping_exact at concrete tags. -/
theorem candidate_type_mapping_exact_witness :
    CandidateTypeToRTCIceCandidateType "tcp" = none ∧
    (CandidateTypeToRTCIceCandidateType "local").isSome = true :=
  ⟨candidate_type_mapping_exact.2.2.2.2.1 "tcp" (by decide) (by decide)
      (by decide) (by decide),
    candidate_type_mapping_exact.2.2.2.2.2 "local" (Or.inl rfl)⟩

/-- C2: when a cached report exists and the monotonic now minus the
cache timestamp is at most the cache lifetime, GetStatsReport delivers
that very cached report to every queued requester (including the new
one), clears the queue, and dispatches no domain task. -/
theorem cache_hit_serves_cached_instance (st : CollectorState) (cb : Nat)
    (now : Int) (r : RTCStatsReport) (hc : st.cachedReport = some r)
    (hfresh : now - st.cache_timestamp_us ≤ st.cache_lifetime_us) :
    GetStatsReport cb now st =
      { state := { st with callbacks := [] }
        delivered := (st.callbacks ++ [cb]).map (fun c => (c, r))
        dispatched := 0 } := by
  simp [GetStatsReport, DeliverCachedReport, hc, hfresh]

/-- Witness for cache_hit_serves_cached_instance on a concrete cached
state. -/
theorem cache_hit_serves_cached_instance_witness :
    GetStatsReport 7 40 sampleCachedState =
      { state := { sampleCachedState with callbacks := [] }
        delivered := ([5] ++ [7]).map (fun c => (c, samplePCReport))
        dispatched := 0 } :=
  cache_hit_serves_cached_instance sampleCachedState 7 40 samplePCReport rfl
    (by decide)

/-- C3: a contribution that drives the pending count to zero sets the
cache timestamp to the dispatch-time monotonic timestamp, publishes
the merged accumulator as the cached report, clears the accumulator,
delivers the published report to every queued requester and clears
the queue; a contribution that leaves the count positive merges into
the accumulator, decrements the count, and changes nothing else. -/
theorem contribute_partial_step (st : CollectorState)
    (contribution : RTCStatsReport) :
    (st.num_pending_partial_reports = 1 →
      AddPartialResults_s contribution st =
        ({ st with
            callbacks := []
            num_pending_partial_reports := 0
            cache_timestamp_us := st.partialReportTimestamp_us
            cachedReport := some (mergedAccumulator st contribution)
            partialReport := none },
         st.callbacks.map (fun c => (c, mergedAccumulator st contribution)))) ∧
    (2 ≤ st.num_pending_partial_reports →
      AddPartialResults_s contribution st =
        ({ st with
            num_pending_partial_reports :=
              st.num_pending_partial_reports - 1
            partialReport := some (mergedAccumulator st contribution) },
         [])) := by
  constructor
  · intro h
    simp [AddPartialResults_s, DeliverCachedReport, mergedAccumulator, h]
  · intro h
    have hne : st.num_pending_partial_reports - 1 ≠ 0 := by omega
    simp [AddPartialResults_s, mergedAccumulator, hne]

/-- Witness for contribute_partial_step: a completing contribution and
a non-completing one, on concrete states. -/
theorem contribute_partial_step_witness :
    (AddPartialResults_s samplePCReport sampleCompletingState =
      ({ sampleCompletingState with
          callbacks := []
          num_pending_partial_reports := 0
          cache_timestamp_us :=
            sampleCompletingState.partialReportTimestamp_us
          cachedReport := some
            (mergedAccumulator sampleCompletingState samplePCReport)
          partialReport := none },
       sampleCompletingState.callbacks.map
         (fun c => (c, mergedAccumulator sampleCompletingState
           samplePCReport)))) ∧
    (AddPartialResults_s samplePCReport sampleBusyState =
      ({ sampleBusyState with
          num_pending_partial_reports :=
            sampleBusyState.num_pending_partial_reports - 1
          partialReport := some
            (mergedAccumulator sampleBusyState samplePCReport) },
       [])) :=
  ⟨(contribute_partial_step sampleCompletingState samplePCReport).1 rfl,
   (contribute_partial_step sampleBusyState samplePCReport).2 (by decide)⟩

/-- C1: while a cycle is in flight (pending contributions outstanding)
and the cache is absent or stale, a further GetStatsReport call only
enqueues the requester: it delivers nothing and dispatches no domain
tasks; and whenever the running cycle completes, every queued callback
is invoked with the one report instance that becomes the cached
report. -/
theorem single_flight_collapse (st : CollectorState) (cb : Nat) (now : Int)
    (hpending : 0 < st.num_pending_partial_reports)
    (hstale : ∀ r, st.cachedReport = some r →
      st.cache_lifetime_us < now - st.cache_timestamp_us) :
    (GetStatsReport cb now st =
      { state := { st with callbacks := st.callbacks ++ [cb] }
        delivered := []
        dispatched := 0 }) ∧
    (∀ (st2 : CollectorState) (contribution : RTCStatsReport),
      st2.num_pending_partial_reports = 1 →
      ∃ final : RTCStatsReport,
        (AddPartialResults_s contribution st2).1.cachedReport = some final ∧
        (AddPartialResults_s contribution st2).2 =
          st2.callbacks.map (fun c => (c, final))) := by
  constructor
  · cases hc : st.cachedReport with
    | none => simp [GetStatsReport, hc, hpending.ne']
    | some r =>
        have hgt := hstale r hc
        simp [GetStatsReport, hc, not_le.mpr hgt, hpending.ne']
  · intro st2 contribution h
    refine ⟨mergedAccumulator st2 contribution, ?_, ?_⟩ <;>
      simp [AddPartialResults_s, DeliverCachedReport, mergedAccumulator, h]

/-- Witness for single_flight_collapse on concrete states. -/
theorem single_flight_collapse_witness :
    (GetStatsReport 7 40 sampleBusyState =
      { state := { sampleBusyState with
          callbacks := sampleBusyState.callbacks ++ [7] }
        delivered := []
        dispatched := 0 }) ∧
    (∃ final : RTCStatsReport,
      (AddPartialResults_s samplePCReport
        sampleCompletingState).1.cachedReport = some final ∧
      (AddPartialResults_s samplePCReport sampleCompletingState).2 =
        sampleCompletingState.callbacks.map (fun c => (c, final))) := by
  have h := single_flight_collapse sampleBusyState 7 40 (by decide)
    (by intro r hr; simp [sampleBusyState] at hr)
  exact ⟨h.1, h.2 sampleCompletingState samplePCReport rfl⟩

/-- C7 counterexample: the counters are uint32 and wrap, so for 2 to
the 32 channels currently open the produced record carries
data_channels_opened zero, not the open-channel count. -/
theorem peer_connection_counter_wrap_counterexample :
    (ProducePeerConnectionStats_s 0
      (List.replicate (2 ^ 32) DataChannelState.kOpen) [] =
      [.peerConnection
        { id := "RTCPeerConnection"
          timestamp_us := 0
          data_channels_opened := some 0
          data_channels_closed := some 0 }]) ∧
    (List.replicate (2 ^ 32) DataChannelState.kOpen).countP
      (fun s => s == DataChannelState.kOpen) = 2 ^ 32 ∧
    (0 : Nat) ≠ 2 ^ 32 := by
  have hcount : (List.replicate (2 ^ 32) DataChannelState.kOpen).countP
      (fun s => s == DataChannelState.kOpen) = 2 ^ 32 := by
    rw [show (List.replicate (2 ^ 32) DataChannelState.kOpen).countP
      (fun s => s == DataChannelState.kOpen) =
      List.count DataChannelState.kOpen
        (List.replicate (2 ^ 32) DataChannelState.kOpen) from rfl,
      List.count_replicate_self]
  have hlen : (List.replicate (2 ^ 32) DataChannelState.kOpen).length =
      2 ^ 32 := by rw [List.length_replicate]
  refine ⟨?_, hcount, by norm_num⟩
  show RTCStatsReport.AddStats [] (RTCStats.peerConnection
      { id := "RTCPeerConnection"
        timestamp_us := 0
        data_channels_opened := some (toUInt32Cast
          ((List.replicate (2 ^ 32) DataChannelState.kOpen).countP
            (fun s => s == DataChannelState.kOpen)))
        data_channels_closed := some
          ((toUInt32Cast (List.replicate (2 ^ 32)
              DataChannelState.kOpen).length + 2 ^ 32 - toUInt32Cast
            ((List.replicate (2 ^ 32) DataChannelState.kOpen).countP
              (fun s => s == DataChannelState.kOpen))) % 2 ^ 32) }) =
    [.peerConnection
      { id := "RTCPeerConnection"
        timestamp_us := 0
        data_channels_opened := some 0
        data_channels_closed := some 0 }]
  rw [hcount, hlen]
  norm_num [toUInt32Cast, RTCStatsReport.AddStats]

/-- C7 (amended for the uint32 counters): the peer connection producer
appends exactly one record, with the constant id, whose
data_channels_opened is the count of channels currently open reduced
mod 2 to the 32 and whose data_channels_closed is the uint32
difference of the channel count and that value; whenever fewer than
2 to the 32 channels exist these are exactly the open count and the
total minus the open count; in particular no channels give 0 and 0,
and one channel in each of the four states gives 1 and 3. -/
theorem peer_connection_counters (timestamp_us : Int)
    (data_channels : List DataChannelState) (report : RTCStatsReport) :
    (ProducePeerConnectionStats_s timestamp_us data_channels report =
      report ++ [.peerConnection
        { id := "RTCPeerConnection"
          timestamp_us := timestamp_us
          data_channels_opened := some (toUInt32Cast
            (data_channels.countP (fun s => s == DataChannelState.kOpen)))
          data_channels_closed := some
            ((toUInt32Cast data_channels.length + 2 ^ 32 - toUInt32Cast
              (data_channels.countP
                (fun s => s == DataChannelState.kOpen))) % 2 ^ 32) }]) ∧
    (data_channels.length < 2 ^ 32 →
      toUInt32Cast (data_channels.countP
        (fun s => s == DataChannelState.kOpen)) =
        data_channels.countP (fun s => s == DataChannelState.kOpen) ∧
      (toUInt32Cast data_channels.length + 2 ^ 32 - toUInt32Cast
        (data_channels.countP (fun s => s == DataChannelState.kOpen)))
        % 2 ^ 32 =
        data_channels.length - data_channels.countP
          (fun s => s == DataChannelState.kOpen)) ∧
    (ProducePeerConnectionStats_s timestamp_us [] [] =
      [.peerConnection
        { id := "RTCPeerConnection"
          timestamp_us := timestamp_us
          data_channels_opened := some 0
          data_channels_closed := some 0 }]) ∧
    (ProducePeerConnectionStats_s timestamp_us
        [.kConnecting, .kOpen, .kClosing, .kClosed] [] =
      [.peerConnection
        { id := "RTCPeerConnection"
          timestamp_us := timestamp_us
          data_channels_opened := some 1
          data_channels_closed := some 3 }]) := by
  refine ⟨rfl, ?_, rfl, rfl⟩
  intro hlen
  have hle : data_channels.countP (fun s => s == DataChannelState.kOpen) ≤
      data_channels.length := List.countP_le_length _
  unfold toUInt32Cast
  constructor <;> omega

/-- Witness for peer_connection_counters: the below-2-to-the-32
hypothesis discharged at the four-state channel vector. -/
theorem peer_connection_counters_witness :
    toUInt32Cast (([DataChannelState.kConnecting, DataChannelState.kOpen,
        DataChannelState.kClosing, DataChannelState.kClosed].countP
        (fun s => s == DataChannelState.kOpen))) =
      [DataChannelState.kConnecting, DataChannelState.kOpen,
        DataChannelState.kClosing, DataChannelState.kClosed].countP
        (fun s => s == DataChannelState.kOpen) ∧
    (toUInt32Cast [DataChannelState.kConnecting, DataChannelState.kOpen,
        DataChannelState.kClosing, DataChannelState.kClosed].length +
      2 ^ 32 - toUInt32Cast
        ([DataChannelState.kConnecting, DataChannelState.kOpen,
          DataChannelState.kClosing, DataChannelState.kClosed].countP
          (fun s => s == DataChannelState.kOpen))) % 2 ^ 32 =
      [DataChannelState.kConnecting, DataChannelState.kOpen,
        DataChannelState.kClosing, DataChannelState.kClosed].length -
      [DataChannelState.kConnecting, DataChannelState.kOpen,
        DataChannelState.kClosing, DataChannelState.kClosed].countP
        (fun s => s == DataChannelState.kOpen) :=
  (peer_connection_counters 0
    [DataChannelState.kConnecting, DataChannelState.kOpen,
      DataChannelState.kClosing, DataChannelState.kClosed] []).2.1
    (by norm_num)

/-- Helper: the id ProduceIceCandidateStats_s returns is always the
synthesized candidate id, whether the record was found or created. -/
theorem produceIceCandidateStats_snd (timestamp_us : Int) (c : Candidate)
    (il : Bool) (report : RTCStatsReport) :
    (ProduceIceCandidateStats_s timestamp_us c il report).2 =
      "RTCIceCandidate_" ++ c.id := by
  unfold ProduceIceCandidateStats_s
  cases hg : RTCStatsReport.Get report ("RTCIceCandidate_" ++ c.id) with
  | none => simp [hg]
  | some s =>
      have h : RTCStats.id s = "RTCIceCandidate_" ++ c.id := by
        have hb := List.find?_some (by simpa [RTCStatsReport.Get] using hg)
        exact eq_of_beq hb
      simp [hg, h]

/-- C6: per connection info, the produced candidate pair record
defines exactly the fields writable, bytes_sent, bytes_received,
requests_sent, responses_received, responses_sent and current_rtt
(the raw millisecond RTT divided by 1000), and leaves transport_id,
state, priority, nominated, readable, total_rtt, the bitrate
estimates and the retransmission and consent counters undefined; the
spec's concrete vector evaluates to writable true, bytes_sent 42,
bytes_received 1234, current_rtt 1.337. -/
theorem producePairForInfo_eq (timestamp_us : Int)
    (info : ConnectionInfo) (report : RTCStatsReport) :
    producePairForInfo timestamp_us info report =
      (ProduceIceCandidateStats_s timestamp_us info.remote_candidate false
        (ProduceIceCandidateStats_s timestamp_us info.local_candidate true
          report).1).1 ++
      [.iceCandidatePair
        { id := "RTCIceCandidatePair_" ++ info.local_candidate.id ++ "_" ++
            info.remote_candidate.id
          timestamp_us := timestamp_us
          transport_id := none
          local_candidate_id := some
            ("RTCIceCandidate_" ++ info.local_candidate.id)
          remote_candidate_id := some
            ("RTCIceCandidate_" ++ info.remote_candidate.id)
          state := none
          priority := none
          nominated := none
          writable := some info.writable
          readable := none
          bytes_sent := some (toUInt64Cast info.sent_total_bytes)
          bytes_received := some (toUInt64Cast info.recv_total_bytes)
          total_rtt := none
          current_rtt := some ((info.rtt : ℚ) / 1000)
          available_outgoing_bitrate := none
          available_incoming_bitrate := none
          requests_received := none
          requests_sent := some (toUInt64Cast info.sent_ping_requests_total)
          responses_received := some (toUInt64Cast info.recv_ping_responses)
          responses_sent := some (toUInt64Cast info.sent_ping_responses)
          retransmissions_received := none
          retransmissions_sent := none
          consent_requests_received := none
          consent_requests_sent := none
          consent_responses_received := none
          consent_responses_sent := none }] := by
  unfold producePairForInfo RTCStatsReport.AddStats
  simp [produceIceCandidateStats_snd]

/-- C6: per connection info, the produced candidate pair record
defines exactly the fields writable, bytes_sent, bytes_received,
requests_sent, responses_received, responses_sent and current_rtt
(the raw millisecond RTT divided by 1000), and leaves transport_id,
state, priority, nominated, readable, total_rtt, the bitrate
estimates and the retransmission and consent counters undefined; the
spec's concrete vector evaluates to writable true, bytes_sent 42,
bytes_received 1234, current_rtt 1.337. -/
theorem candidate_pair_field_fidelity :
    (∀ (timestamp_us : Int) (info : ConnectionInfo)
      (report : RTCStatsReport),
      producePairForInfo timestamp_us info report =
        (ProduceIceCandidateStats_s timestamp_us info.remote_candidate false
          (ProduceIceCandidateStats_s timestamp_us info.local_candidate true
            report).1).1 ++
        [.iceCandidatePair
          { id := "RTCIceCandidatePair_" ++ info.local_candidate.id ++ "_" ++
              info.remote_candidate.id
            timestamp_us := timestamp_us
            transport_id := none
            local_candidate_id := some
              ("RTCIceCandidate_" ++ info.local_candidate.id)
            remote_candidate_id := some
              ("RTCIceCandidate_" ++ info.remote_candidate.id)
            state := none
            priority := none
            nominated := none
            writable := some info.writable
            readable := none
            bytes_sent := some (toUInt64Cast info.sent_total_bytes)
            bytes_received := some (toUInt64Cast info.recv_total_bytes)
            total_rtt := none
            current_rtt := some ((info.rtt : ℚ) / 1000)
            available_outgoing_bitrate := none
            available_incoming_bitrate := none
            requests_received := none
            requests_sent := some
              (toUInt64Cast info.sent_ping_requests_total)
            responses_received := some
              (toUInt64Cast info.recv_ping_responses)
            responses_sent := some (toUInt64Cast info.sent_ping_responses)
            retransmissions_received := none
            retransmissions_sent := none
            consent_requests_received := none
            consent_requests_sent := none
            consent_responses_received := none
            consent_responses_sent := none }]) ∧
    (∃ p : RTCIceCandidatePairStats, ∃ prefixRecords : RTCStatsReport,
      producePairForInfo 0 sampleConnectionInfo [] =
        prefixRecords ++ [.iceCandidatePair p] ∧
      p.writable = some true ∧
      p.bytes_sent = some 42 ∧
      p.bytes_received = some 1234 ∧
      p.current_rtt = some (1.337 : ℚ) ∧
      p.transport_id = none ∧
      p.state = none ∧
      p.priority = none) := by
  refine ⟨producePairForInfo_eq, ?_⟩
  refine ⟨_, _, producePairForInfo_eq 0 sampleConnectionInfo [], rfl,
    by decide, by decide, ?_, rfl, rfl, rfl⟩
  norm_num [sampleConnectionInfo]

/-- Helper: appending on the left is cancellable for strings. -/
theorem string_append_left_cancel (p a b : String) :
    p ++ a = p ++ b ↔ a = b := by
  constructor
  · intro h
    have hd : p.data ++ a.data = p.data ++ b.data := by
      have := congrArg String.data h
      simpa [String.data_append] using this
    exact String.ext (List.append_cancel_left hd)
  · intro h
    rw [h]

/-- Helper: a setIssuer operation leaves a report without the target
id unchanged. -/
theorem applyCertOp_setIssuer_absent (report : RTCStatsReport)
    (tid iid : String) (h : ∀ r ∈ report, RTCStats.id r ≠ tid) :
    applyCertOp report (.setIssuer tid iid) = report := by
  simp only [applyCertOp]
  refine Eq.trans (List.map_congr_left ?_) (List.map_id report)
  intro r hr
  have hid := h r hr
  cases r <;> simp_all [RTCStats.id]

/-- Helper: the report after running the rest of the certificate loop,
starting right after some record c was inserted as the last report
entry (prev points at c):  the result links c and the records of the
remaining chain in sequence, and earlier report entries are
untouched.  The freshness conditions say that no involved id occurs
twice. -/
theorem certOps_foldl_from (timestamp_us : Int) :
    ∀ (rest : List SSLCertificateStats) (report1 : RTCStatsReport)
      (c : RTCCertificateStats),
      (c.id :: rest.map certIdOf).Nodup →
      (∀ x ∈ c.id :: rest.map certIdOf, x ∉ report1.map RTCStats.id) →
      (certOps timestamp_us rest (some c.id)).foldl applyCertOp
        (report1 ++ [.certificate c]) =
      report1 ++ linkRecords timestamp_us c rest := by
  intro rest
  induction rest with
  | nil =>
      intro report1 c _ _
      simp [certOps, linkRecords]
  | cons s r ih =>
      intro report1 c h1 h2
      have hstep1 : applyCertOp (report1 ++ [.certificate c])
          (.setIssuer c.id (certIdOf s)) =
          report1 ++ [.certificate
            { c with issuer_certificate_id := some (certIdOf s) }] := by
        have habs : ∀ x ∈ report1, RTCStats.id x ≠ c.id := by
          intro x hx hxe
          exact h2 c.id (List.mem_cons_self _ _)
            (hxe ▸ List.mem_map_of_mem RTCStats.id hx)
        have habs2 := applyCertOp_setIssuer_absent report1 c.id (certIdOf s)
          habs
        simp only [applyCertOp] at habs2 ⊢
        rw [List.map_append, habs2]
        simp
      have hnodup2 :
          ((mkCertificateStats timestamp_us s).id :: r.map certIdOf).Nodup := by
        have : (certIdOf s :: r.map certIdOf).Nodup :=
          (List.nodup_cons.mp h1).2
        simpa [mkCertificateStats, certIdOf] using this
      have hfresh2 : ∀ x ∈ (mkCertificateStats timestamp_us s).id ::
          r.map certIdOf,
          x ∉ List.map RTCStats.id (report1 ++ [RTCStats.certificate
            { c with issuer_certificate_id := some (certIdOf s) }]) := by
        intro x hx
        have hx' : x ∈ certIdOf s :: r.map certIdOf := by
          simpa [mkCertificateStats, certIdOf] using hx
        have hxtail : x ∈ (s :: r).map certIdOf := by
          simpa using hx'
        have hxne : x ≠ c.id := by
          intro hxe
          exact (List.nodup_cons.mp h1).1 (hxe ▸ hxtail)
        have hxrep : x ∉ report1.map RTCStats.id :=
          h2 x (List.mem_cons_of_mem _ hxtail)
        simp only [List.map_append, List.mem_append, List.map_cons,
          List.map_nil, List.mem_cons, List.not_mem_nil, or_false]
        rintro (hl | hr)
        · exact hxrep hl
        · exact hxne hr
      calc (certOps timestamp_us (s :: r) (some c.id)).foldl applyCertOp
            (report1 ++ [.certificate c])
          = (certOps timestamp_us r
              (some (mkCertificateStats timestamp_us s).id)).foldl applyCertOp
              ((report1 ++ [.certificate
                { c with issuer_certificate_id := some (certIdOf s) }]) ++
               [.certificate (mkCertificateStats timestamp_us s)]) := by
            simp only [certOps, List.cons_append, List.nil_append,
              List.foldl_cons]
            rw [show (mkCertificateStats timestamp_us s).id = certIdOf s from
              rfl, hstep1]
            rfl
        _ = (report1 ++ [.certificate
              { c with issuer_certificate_id := some (certIdOf s) }]) ++
            linkRecords timestamp_us (mkCertificateStats timestamp_us s) r :=
            ih _ _ hnodup2 hfresh2
        _ = report1 ++ linkRecords timestamp_us c (s :: r) := by
            simp [linkRecords]

/-- Helper: the certificate producer appends exactly the linked chain
records when the chain ids are fresh for the given report. -/
theorem produceCert_eq_expected (timestamp_us : Int)
    (chain : List SSLCertificateStats) (report : RTCStatsReport)
    (h1 : (chain.map certIdOf).Nodup)
    (h2 : ∀ x ∈ chain.map certIdOf, x ∉ report.map RTCStats.id) :
    ProduceCertificateStatsFromSSLCertificateAndChain_s timestamp_us chain
      report = report ++ expectedCertReport timestamp_us chain := by
  cases chain with
  | nil =>
      simp [ProduceCertificateStatsFromSSLCertificateAndChain_s, certOps,
        expectedCertReport]
  | cons s rest =>
      unfold ProduceCertificateStatsFromSSLCertificateAndChain_s
        expectedCertReport
      simp only [certOps, List.nil_append, List.foldl_cons]
      have hins : applyCertOp report
          (.insert (mkCertificateStats timestamp_us s)) =
          report ++ [.certificate (mkCertificateStats timestamp_us s)] := rfl
      rw [hins]
      apply certOps_foldl_from
      · simpa [mkCertificateStats, certIdOf] using h1
      · intro x hx
        apply h2
        simpa [mkCertificateStats, certIdOf] using hx

/-- Helper: unfolding equation for a chain of length at least two. -/
theorem expectedCertReport_cons_cons (timestamp_us : Int)
    (s s2 : SSLCertificateStats) (r : List SSLCertificateStats) :
    expectedCertReport timestamp_us (s :: s2 :: r) =
      .certificate { mkCertificateStats timestamp_us s with
        issuer_certificate_id := some (certIdOf s2) } ::
      expectedCertReport timestamp_us (s2 :: r) := rfl

/-- Helper: one record per chain node. -/
theorem expectedCertReport_length (timestamp_us : Int) :
    ∀ chain : List SSLCertificateStats,
    (expectedCertReport timestamp_us chain).length = chain.length := by
  intro chain
  induction chain with
  | nil => rfl
  | cons s rest ih =>
      cases rest with
      | nil => rfl
      | cons s2 r =>
          rw [expectedCertReport_cons_cons, List.length_cons, ih]
          rfl

/-- Helper: the i-th expected certificate record, with its issuer link
pointing at the next record when one exists. -/
theorem expectedCertReport_getElem (timestamp_us : Int) :
    ∀ (chain : List SSLCertificateStats) (i : Nat) (hi : i < chain.length),
    (expectedCertReport timestamp_us chain)[i]? = some (.certificate
      { id := certIdOf chain[i]
        timestamp_us := timestamp_us
        fingerprint := some (chain[i].fingerprint)
        fingerprint_algorithm := some (chain[i].fingerprint_algorithm)
        base64_certificate := some (chain[i].base64_certificate)
        issuer_certificate_id :=
          if h : i + 1 < chain.length then some (certIdOf chain[i + 1])
          else none }) := by
  intro chain
  induction chain with
  | nil => intro i hi; simp at hi
  | cons s rest ih =>
      intro i hi
      cases rest with
      | nil =>
          cases i with
          | zero =>
              rw [dif_neg (by simp)]
              simp [expectedCertReport, linkRecords, mkCertificateStats,
                certIdOf]
          | succ j =>
              exfalso
              simp [List.length_cons] at hi
      | cons s2 r =>
          cases i with
          | zero =>
              rw [expectedCertReport_cons_cons,
                dif_pos (show 0 + 1 < (s :: s2 :: r).length by
                  simp [List.length_cons])]
              simp [mkCertificateStats, certIdOf]
          | succ j =>
              have hj : j < (s2 :: r).length := by
                simpa [List.length_cons] using hi
              rw [expectedCertReport_cons_cons, List.getElem?_cons_succ,
                ih j hj]
              by_cases hlt : j + 1 < (s2 :: r).length
              · have hlt2 : j + 1 + 1 < (s :: s2 :: r).length := by
                  simp only [List.length_cons] at hlt ⊢
                  omega
                rw [dif_pos hlt, dif_pos hlt2]
                simp only [List.getElem_cons_succ]
              · have hlt2 : ¬(j + 1 + 1 < (s :: s2 :: r).length) := by
                  simp only [List.length_cons] at hlt ⊢
                  omega
                rw [dif_neg hlt, dif_neg hlt2]
                simp only [List.getElem_cons_succ]

/-- C4 counterexample: the id synthesized for a chain node carries the
prefix RTCCertificate_, not Certificate_ as the claim states. -/
theorem certificate_id_prefix_counterexample :
    (ProduceCertificateStatsFromSSLCertificateAndChain_s 0
      [{ fingerprint := "f1", fingerprint_algorithm := "sha-1",
         base64_certificate := "p1" }] []).map RTCStats.id =
      ["RTCCertificate_f1"] ∧
    ("RTCCertificate_f1" : String) ≠ "Certificate_f1" :=
  ⟨rfl, by decide⟩

/-- C4 (amended id prefix): on a chain of length N with pairwise
distinct fingerprints, the producer yields exactly N certificate
records; record i has id RTCCertificate_ plus the i-th fingerprint,
record i links to record i+1 through issuer_certificate_id for
i+1 < N, and the last record's issuer_certificate_id is undefined. -/
theorem certificate_chain_linking (timestamp_us : Int)
    (chain : List SSLCertificateStats)
    (hnodup : (chain.map (fun s => s.fingerprint)).Nodup) :
    (ProduceCertificateStatsFromSSLCertificateAndChain_s timestamp_us chain
      []).length = chain.length ∧
    (∀ (i : Nat) (hi : i < chain.length),
      (ProduceCertificateStatsFromSSLCertificateAndChain_s timestamp_us chain
        [])[i]? = some (.certificate
        { id := "RTCCertificate_" ++ chain[i].fingerprint
          timestamp_us := timestamp_us
          fingerprint := some (chain[i].fingerprint)
          fingerprint_algorithm := some (chain[i].fingerprint_algorithm)
          base64_certificate := some (chain[i].base64_certificate)
          issuer_certificate_id :=
            if h : i + 1 < chain.length then
              some ("RTCCertificate_" ++ chain[i + 1].fingerprint)
            else none })) := by
  have hinj : Function.Injective (fun fp => "RTCCertificate_" ++ fp) := by
    intro a b hab
    exact (string_append_left_cancel "RTCCertificate_" a b).mp hab
  have hnodup2 : (chain.map certIdOf).Nodup := by
    have : chain.map certIdOf =
        (chain.map (fun s => s.fingerprint)).map
          (fun fp => "RTCCertificate_" ++ fp) := by
      simp [certIdOf, Function.comp]
    rw [this]
    exact hnodup.map hinj
  have heq := produceCert_eq_expected timestamp_us chain [] hnodup2 (by simp)
  rw [heq, List.nil_append]
  refine ⟨expectedCertReport_length timestamp_us chain, ?_⟩
  intro i hi
  have h := expectedCertReport_getElem timestamp_us chain i hi
  simpa [certIdOf] using h

/-- Witness for certificate_chain_linking on the four-node sample
chain: the distinctness hypothesis holds and the producer yields four
records. -/
theorem certificate_chain_linking_witness :
    (sampleChain4.map (fun s => s.fingerprint)).Nodup ∧
    (ProduceCertificateStatsFromSSLCertificateAndChain_s 0 sampleChain4
      []).length = sampleChain4.length :=
  ⟨by decide,
   (certificate_chain_linking 0 sampleChain4 (by decide)).1⟩

/-- C9 counterexample: on a two-node chain the producer inserts the
leaf record with issuer_certificate_id undefined and afterwards writes
that field of the already-inserted record, so the published record
differs from the record as inserted. -/
theorem record_mutated_after_insertion_counterexample :
    (mutatesInsertedRecord (certOps 0
      [{ fingerprint := "f1", fingerprint_algorithm := "sha-1",
         base64_certificate := "p1" },
       { fingerprint := "f2", fingerprint_algorithm := "sha-1",
         base64_certificate := "p2" }] none) [] = true) ∧
    (certOps 0
      [{ fingerprint := "f1", fingerprint_algorithm := "sha-1",
         base64_certificate := "p1" },
       { fingerprint := "f2", fingerprint_algorithm := "sha-1",
         base64_certificate := "p2" }] none =
      [.insert (mkCertificateStats 0
        { fingerprint := "f1", fingerprint_algorithm := "sha-1",
          base64_certificate := "p1" }),
       .setIssuer "RTCCertificate_f1" "RTCCertificate_f2",
       .insert (mkCertificateStats 0
        { fingerprint := "f2", fingerprint_algorithm := "sha-1",
          base64_certificate := "p2" })]) ∧
    (mkCertificateStats 0
      { fingerprint := "f1", fingerprint_algorithm := "sha-1",
        base64_certificate := "p1" }).issuer_certificate_id = none ∧
    RTCStatsReport.Get (ProduceCertificateStatsFromSSLCertificateAndChain_s 0
      [{ fingerprint := "f1", fingerprint_algorithm := "sha-1",
         base64_certificate := "p1" },
       { fingerprint := "f2", fingerprint_algorithm := "sha-1",
         base64_certificate := "p2" }] []) "RTCCertificate_f1" =
      some (.certificate { mkCertificateStats 0
        { fingerprint := "f1", fingerprint_algorithm := "sha-1",
          base64_certificate := "p1" } with
        issuer_certificate_id := some "RTCCertificate_f2" }) := by
  refine ⟨by decide, by decide, rfl, by decide⟩

/-- Helper: in the trace of the rest of the certificate loop (prev
pointing at an already-inserted record), every setIssuer operation
targets either that record (only possible at position zero) or the
record inserted by the operation immediately before it. -/
theorem certOps_setIssuer_targets_prev (timestamp_us : Int) :
    ∀ (rest : List SSLCertificateStats) (pid : String) (j : Nat)
      (tid iid : String),
      (certOps timestamp_us rest (some pid))[j]? = some (.setIssuer tid iid) →
      (j = 0 ∧ tid = pid) ∨
      (1 ≤ j ∧ ∃ s, (certOps timestamp_us rest (some pid))[j - 1]? =
        some (.insert s) ∧ tid = s.id) := by
  intro rest
  induction rest with
  | nil => intro pid j tid iid h; simp [certOps] at h
  | cons s r ih =>
      intro pid j tid iid h
      match j with
      | 0 =>
          left
          simp [certOps] at h
          exact ⟨rfl, h.1.symm⟩
      | 1 =>
          exfalso
          simp [certOps] at h
      | (k + 2) =>
          right
          have h2 : (certOps timestamp_us r
              (some (mkCertificateStats timestamp_us s).id))[k]? =
              some (.setIssuer tid iid) := by
            simpa [certOps] using h
          rcases ih _ k tid iid h2 with ⟨hk0, htid⟩ | ⟨hk1, st, hins, htid⟩
          · subst hk0
            refine ⟨by omega, mkCertificateStats timestamp_us s, ?_, htid⟩
            simp [certOps]
          · obtain ⟨m, rfl⟩ : ∃ m, k = m + 1 := ⟨k - 1, by omega⟩
            refine ⟨by omega, st, ?_, htid⟩
            simpa [certOps] using hins

/-- Helper: a setIssuer operation changes no field other than
issuer_certificate_id of any record (the reports agree after erasing
that one field). -/
theorem applyCertOp_setIssuer_strip (report : RTCStatsReport)
    (tid iid : String) :
    (applyCertOp report (.setIssuer tid iid)).map stripIssuer =
      report.map stripIssuer := by
  simp only [applyCertOp, List.map_map]
  apply List.map_congr_left
  intro r _
  cases r with
  | certificate c =>
      by_cases h : c.id = tid <;> simp [h, stripIssuer, Function.comp]
  | iceCandidate c => simp [stripIssuer, Function.comp]
  | iceCandidatePair c => simp [stripIssuer, Function.comp]
  | peerConnection c => simp [stripIssuer, Function.comp]

/-- C9 (amended): a record already inserted in a report is written at
most in its issuer_certificate_id field, and only by the certificate
producer: every setIssuer in a producer trace targets the record
inserted by the operation immediately before it, and a setIssuer
leaves every field other than issuer_certificate_id of every record
unchanged.  All of this happens before the partial report is handed
back, so published snapshots are never written again. -/
theorem record_mutation_discipline (timestamp_us : Int)
    (chain : List SSLCertificateStats) :
    (∀ (j : Nat) (tid iid : String),
      (certOps timestamp_us chain none)[j]? = some (.setIssuer tid iid) →
      1 ≤ j ∧ ∃ s, (certOps timestamp_us chain none)[j - 1]? =
        some (.insert s) ∧ tid = s.id) ∧
    (∀ (report : RTCStatsReport) (tid iid : String),
      (applyCertOp report (.setIssuer tid iid)).map stripIssuer =
        report.map stripIssuer) := by
  constructor
  · intro j tid iid h
    cases chain with
    | nil => simp [certOps] at h
    | cons s r =>
        match j with
        | 0 =>
            exfalso
            simp [certOps] at h
        | (k + 1) =>
            have h2 : (certOps timestamp_us r
                (some (mkCertificateStats timestamp_us s).id))[k]? =
                some (.setIssuer tid iid) := by
              simpa [certOps] using h
            rcases certOps_setIssuer_targets_prev timestamp_us r _ k tid iid
              h2 with ⟨hk0, htid⟩ | ⟨hk1, st, hins, htid⟩
            · subst hk0
              refine ⟨by omega, mkCertificateStats timestamp_us s, ?_, htid⟩
              simp [certOps]
            · obtain ⟨m, rfl⟩ : ∃ m, k = m + 1 := ⟨k - 1, by omega⟩
              refine ⟨by omega, st, ?_, htid⟩
              simpa [certOps] using hins
  · exact applyCertOp_setIssuer_strip

/-- Witness for record_mutation_discipline at the two-node sample
chain, position 1 of the trace. -/
theorem record_mutation_discipline_witness :
    1 ≤ 1 ∧ ∃ s, (certOps 0
      [{ fingerprint := "f1", fingerprint_algorithm := "sha-1",
         base64_certificate := "p1" },
       { fingerprint := "f2", fingerprint_algorithm := "sha-1",
         base64_certificate := "p2" }] none)[1 - 1]? =
      some (.insert s) ∧ "RTCCertificate_f1" = s.id :=
  (record_mutation_discipline 0
    [{ fingerprint := "f1", fingerprint_algorithm := "sha-1",
       base64_certificate := "p1" },
     { fingerprint := "f2", fingerprint_algorithm := "sha-1",
       base64_certificate := "p2" }]).1 1 "RTCCertificate_f1"
    "RTCCertificate_f2" (by decide)

/-- Helper: a candidate-pair id never equals a candidate id (the two
id spaces differ at character fifteen). -/
theorem pair_id_ne_candidate_id (a b y : String) :
    ("RTCIceCandidatePair_" ++ a ++ "_" ++ b) ≠ ("RTCIceCandidate_" ++ y) := by
  intro h
  have hd : "RTCIceCandidatePair_".data ++ (a.data ++ ("_".data ++ b.data)) =
      "RTCIceCandidate_".data ++ y.data := by
    have hdata := congrArg String.data h
    simp only [String.data_append, List.append_assoc] at hdata
    exact hdata
  have h15 : ("RTCIceCandidatePair_".data ++
      (a.data ++ ("_".data ++ b.data)))[15]? =
      ("RTCIceCandidate_".data ++ y.data)[15]? := by rw [hd]
  rw [List.getElem?_append_left (by decide),
    List.getElem?_append_left (by decide)] at h15
  exact absurd h15 (by decide)

/-- Helper: lookup skips a record whose id differs. -/
theorem Get_cons_of_ne (r : RTCStats) (rest : RTCStatsReport) (i : String)
    (h : RTCStats.id r ≠ i) :
    RTCStatsReport.Get (r :: rest) i = RTCStatsReport.Get rest i := by
  unfold RTCStatsReport.Get
  exact List.find?_cons_of_neg _ (by simpa using h)

/-- Helper: lookup stops at the first record whose id matches. -/
theorem Get_cons_self (r : RTCStats) (rest : RTCStatsReport) (i : String)
    (h : RTCStats.id r = i) :
    RTCStatsReport.Get (r :: rest) i = some r := by
  unfold RTCStatsReport.Get
  exact List.find?_cons_of_pos _ (by simpa using h)

/-- Helper: when the candidate id is absent the producer appends one
fresh candidate record and returns its id. -/
theorem produceIceCandidateStats_miss (timestamp_us : Int) (c : Candidate)
    (il : Bool) (report : RTCStatsReport)
    (h : report.Get ("RTCIceCandidate_" ++ c.id) = none) :
    ProduceIceCandidateStats_s timestamp_us c il report =
      (report ++ [.iceCandidate (mkIceCandidateStats timestamp_us c il)],
       "RTCIceCandidate_" ++ c.id) := by
  simp only [ProduceIceCandidateStats_s]
  rw [h]
  rfl

/-- Helper: when a record with the candidate id exists the producer
changes nothing and returns the existing record's id. -/
theorem produceIceCandidateStats_hit (timestamp_us : Int) (c : Candidate)
    (il : Bool) (report : RTCStatsReport) (s : RTCStats)
    (h : report.Get ("RTCIceCandidate_" ++ c.id) = some s) :
    ProduceIceCandidateStats_s timestamp_us c il report =
      (report, RTCStats.id s) := by
  simp only [ProduceIceCandidateStats_s]
  rw [h]

/-- Helper: two connection infos sharing their local candidate produce
five records: one shared local candidate record, each pair record
referencing it, and one candidate record per distinct remote
candidate. -/
theorem two_pair_structure (timestamp_us : Int) (a b : ConnectionInfo)
    (hL : a.local_candidate = b.local_candidate)
    (h1 : a.remote_candidate.id ≠ a.local_candidate.id)
    (h2 : b.remote_candidate.id ≠ b.local_candidate.id)
    (h3 : b.remote_candidate.id ≠ a.remote_candidate.id) :
    producePairForInfo timestamp_us b (producePairForInfo timestamp_us a [])
      = [.iceCandidate (mkIceCandidateStats timestamp_us a.local_candidate
            true),
         .iceCandidate (mkIceCandidateStats timestamp_us a.remote_candidate
            false),
         .iceCandidatePair (mkPairStats timestamp_us a),
         .iceCandidate (mkIceCandidateStats timestamp_us b.remote_candidate
            false),
         .iceCandidatePair (mkPairStats timestamp_us b)] := by
  have hLid : b.local_candidate.id = a.local_candidate.id := by rw [hL]
  have e1 := produceIceCandidateStats_miss timestamp_us a.local_candidate
    true [] rfl
  have hGetRA : RTCStatsReport.Get
      [.iceCandidate (mkIceCandidateStats timestamp_us a.local_candidate
        true)] ("RTCIceCandidate_" ++ a.remote_candidate.id) = none := by
    rw [Get_cons_of_ne]
    · rfl
    · simp only [RTCStats.id, mkIceCandidateStats]
      intro hc
      exact h1 ((string_append_left_cancel _ _ _).mp hc).symm
  have e2 := produceIceCandidateStats_miss timestamp_us a.remote_candidate
    false _ hGetRA
  have eA : producePairForInfo timestamp_us a [] =
      [.iceCandidate (mkIceCandidateStats timestamp_us a.local_candidate
        true),
       .iceCandidate (mkIceCandidateStats timestamp_us a.remote_candidate
        false),
       .iceCandidatePair (mkPairStats timestamp_us a)] := by
    rw [producePairForInfo_eq]
    rw [show (ProduceIceCandidateStats_s timestamp_us a.local_candidate true
      ([] : RTCStatsReport)).1 =
      [.iceCandidate (mkIceCandidateStats timestamp_us a.local_candidate
        true)] by rw [e1]; rfl]
    rw [show (ProduceIceCandidateStats_s timestamp_us a.remote_candidate
      false [.iceCandidate (mkIceCandidateStats timestamp_us
        a.local_candidate true)]).1 =
      [.iceCandidate (mkIceCandidateStats timestamp_us a.local_candidate
        true),
       .iceCandidate (mkIceCandidateStats timestamp_us a.remote_candidate
        false)] by rw [e2]; rfl]
    simp [mkPairStats]
  have hGetLb : RTCStatsReport.Get
      (producePairForInfo timestamp_us a [])
      ("RTCIceCandidate_" ++ b.local_candidate.id) =
      some (.iceCandidate (mkIceCandidateStats timestamp_us
        a.local_candidate true)) := by
    rw [eA, hLid]
    exact Get_cons_self _ _ _ rfl
  have e3 := produceIceCandidateStats_hit timestamp_us b.local_candidate
    true _ _ hGetLb
  have hGetRB : RTCStatsReport.Get (producePairForInfo timestamp_us a [])
      ("RTCIceCandidate_" ++ b.remote_candidate.id) = none := by
    rw [eA]
    rw [Get_cons_of_ne]
    · rw [Get_cons_of_ne]
      · rw [Get_cons_of_ne]
        · rfl
        · simp only [RTCStats.id, mkPairStats]
          exact pair_id_ne_candidate_id _ _ _
      · simp only [RTCStats.id, mkIceCandidateStats]
        intro hc
        exact h3 ((string_append_left_cancel _ _ _).mp hc).symm
    · simp only [RTCStats.id, mkIceCandidateStats]
      intro hc
      apply h2
      rw [hLid]
      exact ((string_append_left_cancel _ _ _).mp hc).symm
  have e4 := produceIceCandidateStats_miss timestamp_us b.remote_candidate
    false _ hGetRB
  rw [producePairForInfo_eq]
  rw [show (ProduceIceCandidateStats_s timestamp_us b.local_candidate true
    (producePairForInfo timestamp_us a [])).1 =
    producePairForInfo timestamp_us a [] by rw [e3]]
  rw [show (ProduceIceCandidateStats_s timestamp_us b.remote_candidate false
    (producePairForInfo timestamp_us a [])).1 =
    producePairForInfo timestamp_us a [] ++
      [.iceCandidate (mkIceCandidateStats timestamp_us b.remote_candidate
        false)] by rw [e4]]
  rw [eA]
  simp [mkPairStats]

/-- C5 counterexample: the synthesized candidate record id carries the
prefix RTCIceCandidate_, not Candidate_ as the claim states. -/
theorem candidate_id_prefix_counterexample :
    (ProduceIceCandidateStats_s 0
      { id := "x", ip := "1.2.3.4", port := 5, protocol := "udp",
        type := "local", priority := 9 } true []).2 = "RTCIceCandidate_x" ∧
    ("RTCIceCandidate_x" : String) ≠ "Candidate_x" :=
  ⟨rfl, by decide⟩

/-- C5 (amended id prefix): a candidate record is created only when no
record with its id RTCIceCandidate_ plus the candidate id is in the
snapshot (lookup hit returns the existing record's id and changes
nothing; miss appends exactly one record), and two candidate pairs
sharing one local candidate yield exactly one record for it, whose id
both pair records carry in local_candidate_id. -/
theorem candidate_dedup_on_insert (timestamp_us : Int) :
    (∀ (c : Candidate) (il : Bool) (report : RTCStatsReport) (s : RTCStats),
      report.Get ("RTCIceCandidate_" ++ c.id) = some s →
      ProduceIceCandidateStats_s timestamp_us c il report =
        (report, RTCStats.id s)) ∧
    (∀ (c : Candidate) (il : Bool) (report : RTCStatsReport),
      report.Get ("RTCIceCandidate_" ++ c.id) = none →
      ProduceIceCandidateStats_s timestamp_us c il report =
        (report ++ [.iceCandidate (mkIceCandidateStats timestamp_us c il)],
         "RTCIceCandidate_" ++ c.id)) ∧
    (∀ (a b : ConnectionInfo),
      a.local_candidate = b.local_candidate →
      a.remote_candidate.id ≠ a.local_candidate.id →
      b.remote_candidate.id ≠ b.local_candidate.id →
      b.remote_candidate.id ≠ a.remote_candidate.id →
      (producePairForInfo timestamp_us b
        (producePairForInfo timestamp_us a []) =
        [.iceCandidate (mkIceCandidateStats timestamp_us a.local_candidate
           true),
         .iceCandidate (mkIceCandidateStats timestamp_us a.remote_candidate
           false),
         .iceCandidatePair (mkPairStats timestamp_us a),
         .iceCandidate (mkIceCandidateStats timestamp_us b.remote_candidate
           false),
         .iceCandidatePair (mkPairStats timestamp_us b)]) ∧
      List.count ("RTCIceCandidate_" ++ a.local_candidate.id)
        ((producePairForInfo timestamp_us b
          (producePairForInfo timestamp_us a [])).map RTCStats.id) = 1 ∧
      (mkPairStats timestamp_us a).local_candidate_id =
        some ("RTCIceCandidate_" ++ a.local_candidate.id) ∧
      (mkPairStats timestamp_us b).local_candidate_id =
        some ("RTCIceCandidate_" ++ a.local_candidate.id)) := by
  refine ⟨produceIceCandidateStats_hit timestamp_us,
    produceIceCandidateStats_miss timestamp_us, ?_⟩
  intro a b hL h1 h2 h3
  have hLid : b.local_candidate.id = a.local_candidate.id := by rw [hL]
  have hstruct := two_pair_structure timestamp_us a b hL h1 h2 h3
  have n1 : ("RTCIceCandidate_" ++ a.remote_candidate.id) ≠
      ("RTCIceCandidate_" ++ a.local_candidate.id) :=
    fun hc => h1 ((string_append_left_cancel _ _ _).mp hc)
  have n2 : ("RTCIceCandidate_" ++ b.remote_candidate.id) ≠
      ("RTCIceCandidate_" ++ a.local_candidate.id) :=
    fun hc => h2 (hLid.symm ▸ (string_append_left_cancel _ _ _).mp hc)
  have b1 : (("RTCIceCandidate_" ++ a.remote_candidate.id) ==
      ("RTCIceCandidate_" ++ a.local_candidate.id)) = false :=
    beq_eq_false_iff_ne.mpr n1
  have b2 : (("RTCIceCandidate_" ++ b.remote_candidate.id) ==
      ("RTCIceCandidate_" ++ a.local_candidate.id)) = false :=
    beq_eq_false_iff_ne.mpr n2
  have b3 : (("RTCIceCandidatePair_" ++ a.local_candidate.id ++ "_" ++
      a.remote_candidate.id) ==
      ("RTCIceCandidate_" ++ a.local_candidate.id)) = false :=
    beq_eq_false_iff_ne.mpr (pair_id_ne_candidate_id _ _ _)
  have b4 : (("RTCIceCandidatePair_" ++ b.local_candidate.id ++ "_" ++
      b.remote_candidate.id) ==
      ("RTCIceCandidate_" ++ a.local_candidate.id)) = false :=
    beq_eq_false_iff_ne.mpr (pair_id_ne_candidate_id _ _ _)
  refine ⟨hstruct, ?_, rfl, by simp [mkPairStats, hLid]⟩
  rw [hstruct]
  simp only [List.map_cons, List.map_nil, RTCStats.id, mkIceCandidateStats,
    mkPairStats]
  simp [List.count_cons, b1, b2, b3, b4]

/-- Witness for candidate_dedup_on_insert on the two sample connection
infos sharing a local candidate. -/
theorem candidate_dedup_on_insert_witness :
    List.count ("RTCIceCandidate_" ++
        sampleConnectionInfo.local_candidate.id)
      ((producePairForInfo 0 sampleConnectionInfoB
        (producePairForInfo 0 sampleConnectionInfo [])).map RTCStats.id)
      = 1 :=
  ((candidate_dedup_on_insert 0).2.2 sampleConnectionInfo
    sampleConnectionInfoB rfl (by decide) (by decide) (by decide)).2.1

/-- Helper: a single certificate producer operation never changes the
number of peer connection records. -/
theorem countPC_applyCertOp (report : RTCStatsReport) (op : CertOp) :
    (applyCertOp report op).countP isPeerConnectionRecord =
      report.countP isPeerConnectionRecord := by
  cases op with
  | insert stats =>
      simp [applyCertOp, RTCStatsReport.AddStats, List.countP_append,
        isPeerConnectionRecord]
  | setIssuer tid iid =>
      simp only [applyCertOp]
      rw [List.countP_map]
      apply List.countP_congr
      intro r _
      cases r with
      | certificate c =>
          by_cases h : c.id = tid <;>
            simp [Function.comp, h, isPeerConnectionRecord]
      | iceCandidate c => simp [Function.comp, isPeerConnectionRecord]
      | iceCandidatePair c => simp [Function.comp, isPeerConnectionRecord]
      | peerConnection c => simp [Function.comp, isPeerConnectionRecord]

/-- Helper: folding certificate producer operations preserves the
peer connection record count. -/
theorem countPC_foldl_certOps :
    ∀ (ops : List CertOp) (report : RTCStatsReport),
    (ops.foldl applyCertOp report).countP isPeerConnectionRecord =
      report.countP isPeerConnectionRecord := by
  intro ops
  induction ops with
  | nil => intro report; rfl
  | cons op rest ih =>
      intro report
      rw [List.foldl_cons, ih, countPC_applyCertOp]

/-- Helper: a fold whose step preserves a count preserves the count. -/
theorem countP_foldl_inv {α : Type _} (p : RTCStats → Bool)
    (f : RTCStatsReport → α → RTCStatsReport) (l : List α)
    (rep : RTCStatsReport)
    (hf : ∀ (r : RTCStatsReport) (x : α), (f r x).countP p = r.countP p) :
    (l.foldl f rep).countP p = rep.countP p := by
  induction l generalizing rep with
  | nil => rfl
  | cons x xs ih => rw [List.foldl_cons, ih, hf]

/-- Helper: certificate production adds no peer connection record. -/
theorem countPC_produceCertStats (timestamp_us : Int) (session : Session)
    (session_stats : SessionStats) (report : RTCStatsReport) :
    (ProduceCertificateStats_s timestamp_us session session_stats
      report).countP isPeerConnectionRecord =
      report.countP isPeerConnectionRecord := by
  unfold ProduceCertificateStats_s
  apply countP_foldl_inv
  intro rep t
  cases hlc : session.local_cert t.transport_name with
  | none =>
      cases hrc : session.remote_cert t.transport_name with
      | none => simp [hlc, hrc]
      | some ch =>
          simp only [hlc, hrc]
          exact countPC_foldl_certOps _ _
  | some ch =>
      cases hrc : session.remote_cert t.transport_name with
      | none =>
          simp only [hlc, hrc]
          exact countPC_foldl_certOps _ _
      | some ch2 =>
          simp only [hlc, hrc]
          rw [show ∀ r, ProduceCertificateStatsFromSSLCertificateAndChain_s
            timestamp_us ch2 r = (certOps timestamp_us ch2 none).foldl
              applyCertOp r from fun r => rfl]
          rw [countPC_foldl_certOps]
          exact countPC_foldl_certOps _ _

/-- Helper: candidate production adds no peer connection record. -/
theorem countPC_produceCandidate (timestamp_us : Int) (c : Candidate)
    (il : Bool) (report : RTCStatsReport) :
    ((ProduceIceCandidateStats_s timestamp_us c il report).1).countP
      isPeerConnectionRecord = report.countP isPeerConnectionRecord := by
  cases hg : report.Get ("RTCIceCandidate_" ++ c.id) with
  | some s => rw [produceIceCandidateStats_hit timestamp_us c il report s hg]
  | none =>
      rw [produceIceCandidateStats_miss timestamp_us c il report hg]
      simp [List.countP_append, isPeerConnectionRecord]

/-- Helper: pair production adds no peer connection record. -/
theorem countPC_producePair (timestamp_us : Int) (info : ConnectionInfo)
    (report : RTCStatsReport) :
    (producePairForInfo timestamp_us info report).countP
      isPeerConnectionRecord = report.countP isPeerConnectionRecord := by
  rw [producePairForInfo_eq]
  simp [List.countP_append, isPeerConnectionRecord, countPC_produceCandidate]

/-- Helper: candidate and pair production adds no peer connection
record. -/
theorem countPC_produceIceCandidateAndPair (timestamp_us : Int)
    (session_stats : SessionStats) (report : RTCStatsReport) :
    (ProduceIceCandidateAndPairStats_s timestamp_us session_stats
      report).countP isPeerConnectionRecord =
      report.countP isPeerConnectionRecord := by
  unfold ProduceIceCandidateAndPairStats_s
  apply countP_foldl_inv
  intro rep t
  apply countP_foldl_inv
  intro rep2 cs
  apply countP_foldl_inv
  intro rep3 info
  exact countPC_producePair timestamp_us info rep3

/-- Helper: the pre-summary signaling records hold no peer connection
record. -/
theorem countPC_signalingBase (timestamp_us : Int) (session : Session) :
    (signalingBase timestamp_us session).countP isPeerConnectionRecord
      = 0 := by
  unfold signalingBase
  cases session.transport_stats_result with
  | none => rfl
  | some ss =>
      rw [countPC_produceIceCandidateAndPair, countPC_produceCertStats]
      rfl

/-- Helper: the signaling-thread partial is the base records followed
by exactly one peer connection summary record. -/
theorem signaling_partial_eq (timestamp_us : Int) (session : Session)
    (data_channels : List DataChannelState) :
    ProducePartialResultsOnSignalingThread timestamp_us session
      data_channels =
    signalingBase timestamp_us session ++ [.peerConnection
      { id := "RTCPeerConnection"
        timestamp_us := timestamp_us
        data_channels_opened := some (toUInt32Cast
          (data_channels.countP (fun s => s == DataChannelState.kOpen)))
        data_channels_closed := some
          ((toUInt32Cast data_channels.length + 2 ^ 32 - toUInt32Cast
            (data_channels.countP
              (fun s => s == DataChannelState.kOpen))) % 2 ^ 32) }]
    := by
  unfold ProducePartialResultsOnSignalingThread signalingBase
  cases session.transport_stats_result <;> rfl

/-- C10: the merged snapshot of a completed cycle contains exactly one
peer connection record, with the constant id RTCPeerConnection; the
worker and network partials are empty, the summary is produced whether
or not transport stats are available, and the published snapshot is
never empty. -/
theorem published_snapshot_single_peer_connection (timestamp_us : Int)
    (session : Session) (data_channels : List DataChannelState) :
    ProducePartialResultsOnWorkerThread timestamp_us = [] ∧
    ProducePartialResultsOnNetworkThread timestamp_us = [] ∧
    (mergedCycleReport timestamp_us session data_channels).countP
      isPeerConnectionRecord = 1 ∧
    (∀ r ∈ mergedCycleReport timestamp_us session data_channels,
      isPeerConnectionRecord r = true →
      RTCStats.id r = "RTCPeerConnection") ∧
    mergedCycleReport timestamp_us session data_channels ≠ [] := by
  have hmerged : mergedCycleReport timestamp_us session data_channels =
      ProducePartialResultsOnSignalingThread timestamp_us session
        data_channels := by
    simp [mergedCycleReport, RTCStatsReport.TakeMembersFrom,
      ProducePartialResultsOnWorkerThread,
      ProducePartialResultsOnNetworkThread]
  rw [hmerged, signaling_partial_eq]
  refine ⟨rfl, rfl, ?_, ?_, by simp⟩
  · simp [List.countP_append, isPeerConnectionRecord, countPC_signalingBase]
  · intro r hr hpc
    rcases List.mem_append.mp hr with hb | hl
    · exfalso
      have hz := List.countP_eq_zero.mp
        (countPC_signalingBase timestamp_us session) r hb
      exact hz hpc
    · have : r = RTCStats.peerConnection
          { id := "RTCPeerConnection"
            timestamp_us := timestamp_us
            data_channels_opened := some (toUInt32Cast
              (data_channels.countP (fun s => s == DataChannelState.kOpen)))
            data_channels_closed := some
              ((toUInt32Cast data_channels.length + 2 ^ 32 - toUInt32Cast
                (data_channels.countP
                  (fun s => s == DataChannelState.kOpen))) % 2 ^ 32) } := by
        simpa using hl
      rw [this]
      rfl

end RTCStatsModel
